import Mathlib

/-!
# Login service (`login/login.go`): a shallow embedding

The Go program keeps its credentials in the package variable `users`, the
downstream host in `customerHost`, and talks to the customer service over
HTTP.  Here

* package variables become explicit arguments (`users`, `customerHost`);
* the network is an oracle `Net` answering each request from the requests
  issued so far, and every handler returns the list of requests it issued;
* a Go `error` return and a Go `panic` are both `Except` values;
* `encoding/json` is modelled at the level of JSON objects (ordered fields
  holding a string, a list of strings or `null`), not of bytes;
* logging (`log.Printf`, `fmt.Println`, the `dev` and `verbose` switches that
  only guard logging) has no effect on the responses and is left out.

Go strings reaching the handlers come from `encoding/json` and HTTP headers;
they are modelled by Lean `String`s.  The separator `"/"` is one byte, so
splitting a valid UTF-8 string on that byte is splitting on the character.
-/

set_option autoImplicit false

namespace Login

/-! ## Data model (lines 242-293) -/

/-- Go `user`: one credential of the store. -/
structure user where
  Id : String
  Name : String
  Password : String
deriving DecidableEq, Repr

/-- Go `address`. -/
structure address where
  Street : String
  Number : String
  Country : String
  City : String
deriving DecidableEq, Repr

/-- Go `card`. -/
structure card where
  LongNum : String
  Expires : String
  Ccv : String
deriving DecidableEq, Repr

/-- Go `customer`.  A Go slice is `none` when nil and `some xs` otherwise
(the two marshal differently). -/
structure customer where
  FirstNmae : String
  LastName : String
  Username : String
  Password : String
  Addresses : Option (List String)
  Cards : Option (List String)
deriving DecidableEq, Repr

/-- Go `registerBody`. -/
structure registerBody where
  Address : address
  Card : card
  Customer : customer
deriving DecidableEq, Repr

/-- Go `response`: the body of a successful login. -/
structure response where
  Username : String
  Customer : String
  Id : String
deriving DecidableEq, Repr

/-- The innermost anonymous struct of `customerResponse`: `CustomerLink`. -/
structure CustomerLinkT where
  Href : String
deriving DecidableEq, Repr

/-- The anonymous struct `Links` of `customerResponse`. -/
structure LinksT where
  CustomerLink : CustomerLinkT
deriving DecidableEq, Repr

/-- One element of `customerResponse.Embedded.Customers`. -/
structure CustomerEntry where
  Username : String
  Links : LinksT
deriving DecidableEq, Repr

/-- The anonymous struct `Embedded` of `customerResponse`. -/
structure EmbeddedT where
  Customers : List CustomerEntry
deriving DecidableEq, Repr

/-- Go `customerResponse`. -/
structure customerResponse where
  Embedded : EmbeddedT
deriving DecidableEq, Repr

/-! ## Package constants (lines 14-19) -/

def customerSearchPath : String := "/customers/search/findByUsername"
def customersPath : String := "/customers"
def addressesPath : String := "/addresses"
def cardsPath : String := "/cards"

/-! ## JSON values produced by `json.Marshal` -/

/-- The JSON values the marshalled structs of this program can hold. -/
inductive JsonValue where
  | str (s : String)
  | strs (xs : List String)
  | null
deriving DecidableEq, Repr

/-- A JSON object: its fields in the order `json.Marshal` writes them. -/
abbrev JsonObject := List (String × JsonValue)

/-- How `json.Marshal` writes a `[]string`: `null` for a nil slice. -/
def marshalSlice : Option (List String) → JsonValue
  | none => JsonValue.null
  | some xs => JsonValue.strs xs

/-- The field `Password string` tagged `json:"password,omitempty"`: left out
when the string is empty. -/
def omitemptyString (key : String) (s : String) : JsonObject :=
  if s = "" then [] else [(key, JsonValue.str s)]

/-- What `json.Marshal(a)` yields for an `address`. -/
def marshalAddress (a : address) : JsonObject :=
  [("street", JsonValue.str a.Street), ("number", JsonValue.str a.Number),
   ("country", JsonValue.str a.Country), ("city", JsonValue.str a.City)]

/-- What `json.Marshal(c)` yields for a `card`. -/
def marshalCard (c : card) : JsonObject :=
  [("longNum", JsonValue.str c.LongNum), ("expires", JsonValue.str c.Expires),
   ("ccv", JsonValue.str c.Ccv)]

/-- What `json.Marshal(c)` yields for a `customer`. -/
def marshalCustomer (c : customer) : JsonObject :=
  [("firstName", JsonValue.str c.FirstNmae), ("lastName", JsonValue.str c.LastName),
   ("username", JsonValue.str c.Username)]
  ++ omitemptyString "password" c.Password
  ++ [("addresses", marshalSlice c.Addresses), ("cards", marshalSlice c.Cards)]

/-- What `json.Marshal(res)` yields for a `response`. -/
def marshalResponse (r : response) : JsonObject :=
  [("username", JsonValue.str r.Username), ("customer", JsonValue.str r.Customer),
   ("id", JsonValue.str r.Id)]

/-! ## The network -/

/-- One outgoing HTTP request: `http.Get(url)` or
`http.Post(url, contentType, body)`. -/
structure Request where
  method : String
  url : String
  contentType : String
  body : Option JsonObject
deriving DecidableEq, Repr

/-- What the program reads of the reply to a POST: `res.StatusCode` and
`res.Header.Get("Location")` (the empty string when the header is absent). -/
structure HttpResponse where
  StatusCode : Nat
  Location : String
deriving DecidableEq, Repr

/-- The downstream service.  Each call is answered from the requests issued
before it and the request itself; `Except.error` is a transport error.  For a
GET the answer is the `customerResponse` left in `c` by
`json.NewDecoder(res.Body).Decode(&c)`, whose own error is dropped. -/
structure Net where
  Post : List Request → Request → Except String HttpResponse
  Get : List Request → Request → Except String customerResponse

/-- Go `http.Post`: issue the request, record it. -/
def httpPost (net : Net) (trace : List Request) (url : String) (body : JsonObject) :
    Except String HttpResponse × List Request :=
  let req : Request := ⟨"POST", url, "application/json", some body⟩
  (net.Post trace req, trace ++ [req])

/-- Go `http.Get`: issue the request, record it. -/
def httpGet (net : Net) (trace : List Request) (url : String) :
    Except String customerResponse × List Request :=
  let req : Request := ⟨"GET", url, "", none⟩
  (net.Get trace req, trace ++ [req])

/-! ## The response writer -/

/-- What a handler has written to its `http.ResponseWriter`. -/
structure ResponseWriter where
  status : Option Nat
  header : List (String × String)
  body : List JsonObject
deriving DecidableEq, Repr

/-- A fresh writer: nothing sent. -/
def ResponseWriter.fresh : ResponseWriter := ⟨none, [], []⟩

/-- Go `w.WriteHeader(code)`: the first call fixes the status. -/
def ResponseWriter.WriteHeader (w : ResponseWriter) (code : Nat) : ResponseWriter :=
  match w.status with
  | none => { w with status := some code }
  | some _ => w

/-- Go `w.Header().Set(k, v)`. -/
def ResponseWriter.SetHeader (w : ResponseWriter) (k v : String) : ResponseWriter :=
  { w with header := (w.header.filter (fun kv => kv.1 != k)) ++ [(k, v)] }

/-- Go `w.Write(js)`: sends status 200 first when no status was sent yet. -/
def ResponseWriter.Write (w : ResponseWriter) (js : JsonObject) : ResponseWriter :=
  let w1 := w.WriteHeader 200
  { w1 with body := w1.body ++ [js] }

/-- What one handler run leaves behind: the writer, the credential store, the
requests issued, and whether the handler panicked. -/
structure Outcome where
  w : ResponseWriter
  users : List user
  trace : List Request
  panicked : Bool
deriving DecidableEq, Repr

/-! ## `validatePassword` (lines 224-231) -/

/-- Go `validatePassword`: the `for ... range users` loop. -/
def validatePassword (users : List user) (u p : String) : Bool :=
  match users with
  | [] => false
  | user :: rest =>
    if user.Name = u ∧ user.Password = p then true
    else validatePassword rest u p

/-! ## `strings.Split` with the separator `"/"` -/

/-- Go `strings.Index(s, sep)` for a one-byte separator: the position of its
first occurrence, `none` for Go's `-1`. -/
def Index (s : List Char) (sep : Char) : Option Nat :=
  match s with
  | [] => none
  | c :: cs => if c = sep then some 0 else (Index cs sep).map (fun m => m + 1)

/-- Go `strings.Count(s, sep)` for a one-byte separator. -/
def Count (s : List Char) (sep : Char) : Nat :=
  match s with
  | [] => 0
  | c :: cs => if c = sep then Count cs sep + 1 else Count cs sep

/-- The loop of Go `genSplit`: `k` is the number of cuts still allowed
(`n - 1 - i`); each round cuts at the first separator (`a[i] = s[:m]`,
`s = s[m+len(sep):]`), and the rest of the string is the last element. -/
def genSplitLoop (sep : Char) : Nat → List Char → List (List Char)
  | 0, s => [s]
  | k + 1, s =>
    match Index s sep with
    | none => [s]
    | some m => s.take m :: genSplitLoop sep k (s.drop (m + 1))

/-- Go `strings.Split(s, sep)` for a one-byte separator `sep`:
`genSplit(s, sep, 0, -1)` with `n = Count(s, sep) + 1`. -/
def Split (s : String) (sep : Char) : List String :=
  (genSplitLoop sep (Count s.data sep) s.data).map String.mk

/-! ## `lookupCustomer` (lines 200-222) -/

/-- Go `lookupCustomer`: one GET on the search endpoint.  The second check of
`err` in the source can never fire (the decoder's error is not assigned). -/
def lookupCustomer (net : Net) (customerHost : String) (trace : List Request)
    (u _p : String) : Except String customerResponse × List Request :=
  let reqUrl := "http://" ++ customerHost ++ customerSearchPath ++ "?username=" ++ u
  match httpGet net trace reqUrl with
  | (Except.error err, t) => (Except.error err, t)
  | (Except.ok c, t) => (Except.ok c, t)

/-! ## `loginHandler` (lines 50-102) -/

/-- Lines 84-85 of `loginHandler`: `idSplit := strings.Split(custLink, "/")`,
`id := idSplit[len(idSplit)-1]`; `none` is Go's index-out-of-range panic. -/
def idOfLink (custLink : String) : Option String :=
  let idSplit := Split custLink '/'
  idSplit[idSplit.length - 1]?

/-- Go `loginHandler`.  `auth` is the result of `r.BasicAuth()`: `none` when
`ok` is false. -/
def loginHandler (net : Net) (customerHost : String) (users : List user)
    (auth : Option (String × String)) : Outcome :=
  let w := ResponseWriter.fresh
  match auth with
  | none => ⟨w.WriteHeader 401, users, [], false⟩
  | some (u, p) =>
    if !validatePassword users u p then ⟨w.WriteHeader 401, users, [], false⟩
    else
      match lookupCustomer net customerHost [] u p with
      | (Except.error _, t) => ⟨w.WriteHeader 401, users, t, true⟩
      | (Except.ok c, t) =>
        if c.Embedded.Customers.length < 1 then ⟨w.WriteHeader 401, users, t, false⟩
        else
          match c.Embedded.Customers[0]? with
          | none => ⟨w, users, t, true⟩
          | some cust =>
            let custLink := cust.Links.CustomerLink.Href
            match idOfLink custLink with
            | none => ⟨w, users, t, true⟩
            | some id =>
              let res : response := ⟨cust.Username, custLink, id⟩
              let js := marshalResponse res
              ⟨(w.SetHeader "Content-Type" "application/json").Write js, users, t, false⟩

/-! ## `createAddress`, `createCard`, `createCustomer` (lines 146-197) -/

/-- Go `createAddress`: `Except.error` is the returned `err`. -/
def createAddress (net : Net) (customerHost : String) (trace : List Request)
    (a : address) : Except String String × List Request :=
  let jsonBytes := marshalAddress a
  let url := "http://" ++ customerHost ++ addressesPath
  match httpPost net trace url jsonBytes with
  | (Except.error err, t) => (Except.error err, t)
  | (Except.ok res, t) => (Except.ok res.Location, t)

/-- Go `createCard`: `Except.error` is the returned `err`. -/
def createCard (net : Net) (customerHost : String) (trace : List Request)
    (c : card) : Except String String × List Request :=
  let jsonBytes := marshalCard c
  match httpPost net trace ("http://" ++ customerHost ++ addressesPath) jsonBytes with
  | (Except.error err, t) => (Except.error err, t)
  | (Except.ok res, t) => (Except.ok res.Location, t)

/-- Go `createCustomer`: `Except.error` is `panic(err)`. -/
def createCustomer (net : Net) (customerHost : String) (trace : List Request)
    (c : customer) : Except String Bool × List Request :=
  let jsonBytes := marshalCustomer c
  match httpPost net trace ("http://" ++ customerHost ++ addressesPath) jsonBytes with
  | (Except.error err, t) => (Except.error err, t)
  | (Except.ok res, t) =>
    if res.StatusCode = 200 ∨ res.StatusCode = 201 then (Except.ok true, t)
    else (Except.ok false, t)

/-! ## `registerHandler` (lines 104-144) -/

/-- Go `registerHandler`.  `decoded` is the result of `decoder.Decode(&b)`. -/
def registerHandler (net : Net) (customerHost : String) (users : List user)
    (decoded : Except String registerBody) : Outcome :=
  let w := ResponseWriter.fresh
  match decoded with
  | Except.error _ => ⟨w.WriteHeader 400, users, [], false⟩
  | Except.ok b =>
    match createAddress net customerHost [] b.Address with
    | (Except.error _, t1) => ⟨w.WriteHeader 400, users, t1, false⟩
    | (Except.ok addressLink, t1) =>
      match createCard net customerHost t1 b.Card with
      | (Except.error _, t2) => ⟨w.WriteHeader 400, users, t2, false⟩
      | (Except.ok cardLink, t2) =>
        let c := b.Customer
        let username := c.Username
        let password := c.Password
        let c := { c with Password := "" }
        let c := { c with Addresses := some [addressLink] }
        let c := { c with Cards := some [cardLink] }
        match createCustomer net customerHost t2 c with
        | (Except.error _, t3) => ⟨w, users, t3, true⟩
        | (Except.ok false, t3) => ⟨w.WriteHeader 400, users, t3, false⟩
        | (Except.ok true, t3) =>
          ⟨w.WriteHeader 200, users ++ [⟨"", username, password⟩], t3, false⟩

/-! ## Concrete stores, payloads and networks used in the examples -/

/-- The store holding the one credential alice / pw1. -/
def aliceStore : List user := [⟨"1", "alice", "pw1"⟩]

/-- A directory answering every search with the one customer alice, linked at
`http://accounts/customers/7`. -/
def aliceNet : Net :=
  ⟨fun _ _ => Except.ok ⟨201, ""⟩,
   fun _ _ => Except.ok ⟨⟨[⟨"alice", ⟨⟨"http://accounts/customers/7"⟩⟩⟩]⟩⟩⟩

/-- A registration payload with password `secret`. -/
def bobBody : registerBody :=
  ⟨⟨"Main St", "1", "UK", "London"⟩, ⟨"4111", "12/30", "123"⟩,
   ⟨"Bob", "Builder", "bob", "secret", none, none⟩⟩

/-- A downstream service answering every POST with the given status and the
given `Location` header. -/
def netReplying (status : Nat) (loc : String) : Net :=
  ⟨fun _ _ => Except.ok ⟨status, loc⟩, fun _ _ => Except.ok ⟨⟨[]⟩⟩⟩

/-- A downstream service where every request fails in transport. -/
def netDown : Net :=
  ⟨fun _ _ => Except.error "connection refused",
   fun _ _ => Except.error "connection refused"⟩

/-- A downstream service that answers the first POST (the address) with status
500 and no `Location`, and every later POST with 201 and a `Location`. -/
def netAddress500 : Net :=
  ⟨fun trace _ =>
     if trace.length = 0 then Except.ok ⟨500, ""⟩
     else Except.ok ⟨201, "http://accounts/created/1"⟩,
   fun _ _ => Except.ok ⟨⟨[]⟩⟩⟩

/-- A downstream service that accepts the address and the card (201) and
answers the third POST, the customer, with the given status. -/
def netCustomerStatus (status : Nat) : Net :=
  ⟨fun trace _ =>
     if trace.length < 2 then Except.ok ⟨201, "http://accounts/created/1"⟩
     else Except.ok ⟨status, ""⟩,
   fun _ _ => Except.ok ⟨⟨[]⟩⟩⟩

end Login

namespace Login

/-! ## `validatePassword` -/

theorem validatePassword_eq_true_iff (users : List user) (u p : String) :
    validatePassword users u p = true ↔ ∃ e ∈ users, e.Name = u ∧ e.Password = p := by
  induction users with
  | nil => simp [validatePassword]
  | cons x xs ih =>
    unfold validatePassword
    by_cases h : x.Name = u ∧ x.Password = p
    · simp [h]
    · rw [if_neg h, ih]
      constructor
      · rintro ⟨e, he, hh⟩
        exact ⟨e, List.mem_cons_of_mem _ he, hh⟩
      · rintro ⟨e, he, hh⟩
        rcases List.mem_cons.mp he with rfl | he
        · exact absurd hh h
        · exact ⟨e, he, hh⟩

/-- C1: `validatePassword u p` is true exactly when some entry of the store
has `Name = u` and `Password = p`, whatever its `Id`; on the empty store it is
false. -/
theorem validatePassword_iff_exists :
    (∀ (users : List user) (u p : String),
      validatePassword users u p = true ↔
        ∃ e ∈ users, e.Name = u ∧ e.Password = p) ∧
    (∀ u p : String, validatePassword [] u p = false) :=
  ⟨validatePassword_eq_true_iff, fun _ _ => rfl⟩

end Login

namespace Login

/-! ## Facts about `Index`, `Count` and `genSplitLoop` -/

theorem Index_eq_none {sep : Char} : ∀ {s : List Char}, Index s sep = none → sep ∉ s
  | [], _ => by simp
  | c :: cs, h => by
    unfold Index at h
    by_cases hc : c = sep
    · simp [hc] at h
    · rw [if_neg hc] at h
      have h2 : Index cs sep = none := by
        cases hi : Index cs sep with
        | none => rfl
        | some m => rw [hi] at h; simp at h
      have ih := Index_eq_none h2
      simp only [List.mem_cons, not_or]
      exact ⟨fun e => hc e.symm, ih⟩

theorem Count_eq_zero {sep : Char} : ∀ {s : List Char}, Count s sep = 0 → sep ∉ s
  | [], _ => by simp
  | c :: cs, h => by
    unfold Count at h
    by_cases hc : c = sep
    · simp [hc] at h
    · rw [if_neg hc] at h
      have ih := Count_eq_zero h
      simp only [List.mem_cons, not_or]
      exact ⟨fun e => hc e.symm, ih⟩

theorem Index_eq_some {sep : Char} : ∀ {s : List Char} {m : Nat}, Index s sep = some m →
    s = s.take m ++ sep :: s.drop (m + 1) ∧ sep ∉ s.take m ∧
      Count (s.drop (m + 1)) sep + 1 = Count s sep
  | [], m, h => by simp [Index] at h
  | c :: cs, m, h => by
    unfold Index at h
    by_cases hc : c = sep
    · rw [if_pos hc] at h
      have hm : m = 0 := by simpa using h.symm
      subst hm
      subst hc
      simp [Count]
    · rw [if_neg hc] at h
      cases hi : Index cs sep with
      | none => rw [hi] at h; simp at h
      | some j =>
        rw [hi] at h
        have hm : m = j + 1 := by simpa using h.symm
        subst hm
        obtain ⟨h1, h2, h3⟩ := Index_eq_some hi
        refine ⟨?_, ?_, ?_⟩
        · simp only [List.take_succ_cons, List.drop_succ_cons, List.cons_append]
          exact congrArg (List.cons c) h1
        · simp only [List.take_succ_cons, List.mem_cons, not_or]
          exact ⟨fun e => hc e.symm, h2⟩
        · simp only [List.drop_succ_cons]
          rw [h3]
          simp [Count, hc]

/-- The last element of the split: it exists, holds no separator, and is what
follows the last separator of the string. -/
theorem genSplitLoop_getLast (sep : Char) : ∀ (k : Nat) (s : List Char), Count s sep ≤ k →
    ∃ pre last : List Char, (genSplitLoop sep k s).getLast? = some last ∧
      s = pre ++ last ∧ sep ∉ last ∧ (pre = [] ∨ pre.getLast? = some sep) ∧
      (sep ∉ s → last = s)
  | 0, s, h => by
    refine ⟨[], s, ?_, ?_, ?_, Or.inl rfl, fun _ => rfl⟩
    · simp [genSplitLoop]
    · simp
    · exact Count_eq_zero (Nat.le_zero.mp h)
  | k + 1, s, h => by
    unfold genSplitLoop
    cases hi : Index s sep with
    | none =>
      refine ⟨[], s, ?_, ?_, ?_, Or.inl rfl, fun _ => rfl⟩
      · simp
      · simp
      · exact Index_eq_none hi
    | some m =>
      obtain ⟨h1, _, h3⟩ := Index_eq_some hi
      have hk : Count (s.drop (m + 1)) sep ≤ k := by omega
      obtain ⟨pre, last, e1, e2, e3, e4, _⟩ := genSplitLoop_getLast sep k (s.drop (m + 1)) hk
      have hne : genSplitLoop sep k (s.drop (m + 1)) ≠ [] := by
        intro hnil
        rw [hnil] at e1
        simp at e1
      refine ⟨s.take m ++ sep :: pre, last, ?_, ?_, e3, Or.inr ?_, ?_⟩
      · show (s.take m :: genSplitLoop sep k (s.drop (m + 1))).getLast? = some last
        obtain ⟨x, xs, hx⟩ := List.exists_cons_of_ne_nil hne
        rw [hx, List.getLast?_cons_cons, ← hx]
        exact e1
      · calc s = s.take m ++ sep :: s.drop (m + 1) := h1
          _ = s.take m ++ sep :: (pre ++ last) := by rw [← e2]
          _ = (s.take m ++ sep :: pre) ++ last := by simp
      · rcases e4 with rfl | e4
        · simp
        · cases pre with
          | nil => simp at e4
          | cons a as =>
            rw [List.getLast?_append_of_ne_nil _ (by simp), List.getLast?_cons_cons]
            exact e4
      · intro hs
        exfalso
        apply hs
        rw [h1]
        simp

/-- The index `len(idSplit)-1` is always in range, and the element there is the
part of the link after its last `/`. -/
theorem idOfLink_spec (L : String) :
    ∃ pre last : List Char, idOfLink L = some (String.mk last) ∧
      L.data = pre ++ last ∧ '/' ∉ last ∧ (pre = [] ∨ pre.getLast? = some '/') ∧
      ('/' ∉ L.data → last = L.data) := by
  obtain ⟨pre, last, e1, e2, e3, e4, e5⟩ :=
    genSplitLoop_getLast '/' (Count L.data '/') L.data (Nat.le_refl _)
  refine ⟨pre, last, ?_, e2, e3, e4, e5⟩
  unfold idOfLink Split
  simp only
  rw [← List.getLast?_eq_getElem?, List.getLast?_map, e1]
  rfl

end Login

namespace Login

/-! ## The login handler -/

/-- The run of `loginHandler` once the password is valid and the directory
lists at least one customer. -/
theorem loginHandler_resolved (net : Net) (customerHost : String) (users : List user)
    (u p : String) (first : CustomerEntry) (rest : List CustomerEntry)
    (hv : validatePassword users u p = true)
    (hdir : net.Get [] ⟨"GET",
      "http://" ++ customerHost ++ customerSearchPath ++ "?username=" ++ u, "", none⟩
        = Except.ok ⟨⟨first :: rest⟩⟩) :
    ∃ id : String, idOfLink first.Links.CustomerLink.Href = some id ∧
      loginHandler net customerHost users (some (u, p)) =
        ⟨(ResponseWriter.fresh.SetHeader "Content-Type" "application/json").Write
            (marshalResponse ⟨first.Username, first.Links.CustomerLink.Href, id⟩),
          users,
          [⟨"GET", "http://" ++ customerHost ++ customerSearchPath ++ "?username=" ++ u,
            "", none⟩],
          false⟩ := by
  obtain ⟨pre, last, hid, -⟩ := idOfLink_spec first.Links.CustomerLink.Href
  refine ⟨String.mk last, hid, ?_⟩
  simp [loginHandler, lookupCustomer, httpGet, hv, hdir, hid]

end Login

namespace Login

/-- C2: when the directory lookup returns `c` without a transport error,
`loginHandler` answers 200 exactly when the request carries Basic Auth
credentials, `validatePassword` accepts them and `c` lists at least one
customer; in every other case it answers 401 with no body.  The handler does
not panic. -/
theorem loginHandler_status (net : Net) (customerHost : String) (users : List user)
    (auth : Option (String × String)) (c : customerResponse)
    (hdir : ∀ u p : String, auth = some (u, p) →
      net.Get [] ⟨"GET",
        "http://" ++ customerHost ++ customerSearchPath ++ "?username=" ++ u, "", none⟩
          = Except.ok c) :
    ((loginHandler net customerHost users auth).w.status = some 200 ↔
      ∃ u p : String, auth = some (u, p) ∧ validatePassword users u p = true ∧
        1 ≤ c.Embedded.Customers.length) ∧
    ((loginHandler net customerHost users auth).w.status ≠ some 200 →
      (loginHandler net customerHost users auth).w.status = some 401 ∧
      (loginHandler net customerHost users auth).w.body = []) ∧
    (loginHandler net customerHost users auth).panicked = false := by
  cases auth with
  | none =>
    simp [loginHandler, ResponseWriter.WriteHeader, ResponseWriter.fresh]
  | some up =>
    obtain ⟨u, p⟩ := up
    have hget := hdir u p rfl
    cases hv : validatePassword users u p with
    | false =>
      simp [loginHandler, hv, ResponseWriter.WriteHeader, ResponseWriter.fresh]
    | true =>
      obtain ⟨⟨customers⟩⟩ := c
      cases customers with
      | nil =>
        simp [loginHandler, lookupCustomer, httpGet, hv, hget,
          ResponseWriter.WriteHeader, ResponseWriter.fresh]
      | cons first rest =>
        obtain ⟨id, -, hrun⟩ :=
          loginHandler_resolved net customerHost users u p first rest hv hget
        rw [hrun]
        refine ⟨?_, ?_, rfl⟩
        · constructor
          · intro _
            exact ⟨u, p, rfl, hv, by simp⟩
          · intro _
            rfl
        · intro hne
          exact absurd rfl hne

/-- C2 at the store alice / pw1 with one directory match: status 200. -/
theorem loginHandler_status_witness :
    (loginHandler aliceNet "accounts" aliceStore (some ("alice", "pw1"))).w.status = some 200 ∧
    (loginHandler aliceNet "accounts" aliceStore (some ("alice", "pw1"))).panicked = false :=
  have h := loginHandler_status aliceNet "accounts" aliceStore (some ("alice", "pw1"))
    ⟨⟨[⟨"alice", ⟨⟨"http://accounts/customers/7"⟩⟩⟩]⟩⟩ (fun _ _ _ => rfl)
  ⟨h.1.mpr ⟨"alice", "pw1", rfl, by decide, by decide⟩, h.2.2⟩

/-- C3: for an authenticated login whose directory result lists at least one
customer, the answer is 200 and its body is the response whose `Username` is
the first customer's username and whose `Customer` is the first customer's
`_links.customer.href`, with `Id` computed from that link; neither the later
customers nor the Basic Auth username matter. -/
theorem loginHandler_first_customer (net : Net) (customerHost : String) (users : List user)
    (u p : String) (first : CustomerEntry) (rest : List CustomerEntry)
    (hv : validatePassword users u p = true)
    (hdir : net.Get [] ⟨"GET",
      "http://" ++ customerHost ++ customerSearchPath ++ "?username=" ++ u, "", none⟩
        = Except.ok ⟨⟨first :: rest⟩⟩) :
    ∃ id : String, idOfLink first.Links.CustomerLink.Href = some id ∧
      (loginHandler net customerHost users (some (u, p))).w.status = some 200 ∧
      (loginHandler net customerHost users (some (u, p))).w.body =
        [marshalResponse ⟨first.Username, first.Links.CustomerLink.Href, id⟩] := by
  obtain ⟨id, hid, hrun⟩ :=
    loginHandler_resolved net customerHost users u p first rest hv hdir
  refine ⟨id, hid, ?_, ?_⟩
  · rw [hrun]
    simp [ResponseWriter.Write, ResponseWriter.SetHeader, ResponseWriter.WriteHeader,
      ResponseWriter.fresh]
  · rw [hrun]
    simp [ResponseWriter.Write, ResponseWriter.SetHeader, ResponseWriter.WriteHeader,
      ResponseWriter.fresh]

/-- C3 on the scenario of the specification: store alice / pw1, one match
alice at `http://accounts/customers/7`. -/
theorem loginHandler_first_customer_witness :
    (loginHandler aliceNet "accounts" aliceStore (some ("alice", "pw1"))).w.status = some 200 ∧
    (loginHandler aliceNet "accounts" aliceStore (some ("alice", "pw1"))).w.body =
      [[("username", JsonValue.str "alice"),
        ("customer", JsonValue.str "http://accounts/customers/7"),
        ("id", JsonValue.str "7")]] := by
  obtain ⟨id, hid, hs, hb⟩ :=
    loginHandler_first_customer aliceNet "accounts" aliceStore "alice" "pw1"
      ⟨"alice", ⟨⟨"http://accounts/customers/7"⟩⟩⟩ [] (by decide) rfl
  have h7 : idOfLink "http://accounts/customers/7" = some "7" := by decide
  have hid7 : id = "7" := by
    rw [h7] at hid
    exact (Option.some.inj hid).symm
  subst hid7
  exact ⟨hs, hb⟩

/-- C4: for every customer link `L` the split is never empty, so the index
`len(idSplit)-1` is in range and the id is defined; the id holds no `/`; `L` is
`pre ++ id` with `pre` empty or ending in `/`; and the id is all of `L` when
`L` holds no `/`.  The link `http://accounts/customers/42` gives `42`. -/
theorem idOfLink_last_segment :
    (∀ L : String,
      (Split L '/').length - 1 < (Split L '/').length ∧
      ∃ id : String, idOfLink L = some id ∧ '/' ∉ id.data ∧
        (∃ pre : String, L = pre ++ id ∧ (pre = "" ∨ pre.data.getLast? = some '/')) ∧
        ('/' ∉ L.data → id = L)) ∧
    idOfLink "http://accounts/customers/42" = some "42" := by
  refine ⟨fun L => ?_, by decide⟩
  obtain ⟨pre, last, hid, hsplit, hno, hpre, hall⟩ := idOfLink_spec L
  constructor
  · have hlen : (Split L '/').length ≠ 0 := by
      intro h0
      have : idOfLink L = none := by
        unfold idOfLink
        simp only
        rw [List.length_eq_zero.mp h0]
        rfl
      rw [this] at hid
      exact Option.noConfusion hid
    omega
  · refine ⟨String.mk last, hid, hno, ⟨String.mk pre, ?_, ?_⟩, ?_⟩
    · apply String.ext
      simpa using hsplit
    · rcases hpre with rfl | hpre
      · exact Or.inl rfl
      · exact Or.inr hpre
    · intro h
      apply String.ext
      simpa using hall h

end Login

namespace Login

/-! ## The register handler -/

/-- The run of `registerHandler` once the address and the card are created:
the customer handed to `createCustomer` and the three ways the run can end. -/
theorem registerHandler_created (net : Net) (customerHost : String) (users : List user)
    (b : registerBody) (A C : String)
    (hA : (createAddress net customerHost [] b.Address).1 = Except.ok A)
    (hC : (createCard net customerHost
            (createAddress net customerHost [] b.Address).2 b.Card).1 = Except.ok C) :
    registerHandler net customerHost users (Except.ok b) =
      match createCustomer net customerHost
          (createCard net customerHost
            (createAddress net customerHost [] b.Address).2 b.Card).2
          { b.Customer with Password := "", Addresses := some [A], Cards := some [C] } with
      | (Except.error _, t3) => ⟨ResponseWriter.fresh, users, t3, true⟩
      | (Except.ok false, t3) => ⟨ResponseWriter.fresh.WriteHeader 400, users, t3, false⟩
      | (Except.ok true, t3) =>
        ⟨ResponseWriter.fresh.WriteHeader 200,
          users ++ [⟨"", b.Customer.Username, b.Customer.Password⟩], t3, false⟩ := by
  rcases hA1 : createAddress net customerHost [] b.Address with ⟨ra, ta⟩
  rw [hA1] at hA hC
  simp only at hA hC
  subst hA
  rcases hC1 : createCard net customerHost ta b.Card with ⟨rc, tc⟩
  rw [hC1] at hC
  simp only at hC
  subst hC
  simp only [registerHandler, hA1, hC1]

theorem createAddress_snd (net : Net) (customerHost : String) (t : List Request)
    (a : address) :
    (createAddress net customerHost t a).2 =
      t ++ [⟨"POST", "http://" ++ customerHost ++ addressesPath, "application/json",
        some (marshalAddress a)⟩] := by
  unfold createAddress httpPost
  simp only
  split <;> simp_all

theorem createCard_snd (net : Net) (customerHost : String) (t : List Request)
    (c : card) :
    (createCard net customerHost t c).2 =
      t ++ [⟨"POST", "http://" ++ customerHost ++ addressesPath, "application/json",
        some (marshalCard c)⟩] := by
  unfold createCard httpPost
  simp only
  split <;> simp_all

theorem createCustomer_snd (net : Net) (customerHost : String) (t : List Request)
    (c : customer) :
    (createCustomer net customerHost t c).2 =
      t ++ [⟨"POST", "http://" ++ customerHost ++ addressesPath, "application/json",
        some (marshalCustomer c)⟩] := by
  unfold createCustomer httpPost
  simp only
  split
  · simp_all
  · split <;> simp_all

theorem registerHandler_trace_created (net : Net) (customerHost : String)
    (users : List user) (b : registerBody) (A C : String)
    (hA : (createAddress net customerHost [] b.Address).1 = Except.ok A)
    (hC : (createCard net customerHost
            (createAddress net customerHost [] b.Address).2 b.Card).1 = Except.ok C) :
    (registerHandler net customerHost users (Except.ok b)).trace =
      (createCustomer net customerHost
          (createCard net customerHost
            (createAddress net customerHost [] b.Address).2 b.Card).2
          { b.Customer with Password := "", Addresses := some [A], Cards := some [C] }).2 := by
  rw [registerHandler_created net customerHost users b A C hA hC]
  split <;> simp_all

end Login

namespace Login

/-- C5: when address creation returns `A` and card creation returns `C`, the
customer handed to `createCustomer` is `payload.customer` with `Password`
empty, `Addresses = [A]`, `Cards = [C]` and the names unchanged; the third
request of the run carries its JSON, which has the fields firstName, lastName,
username, addresses, cards and no field `password`. -/
theorem registerHandler_customer_sent (net : Net) (customerHost : String)
    (users : List user) (b : registerBody) (A C : String)
    (hA : (createAddress net customerHost [] b.Address).1 = Except.ok A)
    (hC : (createCard net customerHost
            (createAddress net customerHost [] b.Address).2 b.Card).1 = Except.ok C) :
    (registerHandler net customerHost users (Except.ok b)).trace =
      (createCustomer net customerHost
          (createCard net customerHost
            (createAddress net customerHost [] b.Address).2 b.Card).2
          { b.Customer with Password := "", Addresses := some [A], Cards := some [C] }).2 ∧
    ((registerHandler net customerHost users (Except.ok b)).trace[2]?).map
        (fun r => (r.method, r.body)) =
      some ("POST", some (marshalCustomer
        { b.Customer with Password := "", Addresses := some [A], Cards := some [C] })) ∧
    marshalCustomer
        { b.Customer with Password := "", Addresses := some [A], Cards := some [C] } =
      [("firstName", JsonValue.str b.Customer.FirstNmae),
       ("lastName", JsonValue.str b.Customer.LastName),
       ("username", JsonValue.str b.Customer.Username),
       ("addresses", JsonValue.strs [A]), ("cards", JsonValue.strs [C])] ∧
    (∀ v : JsonValue, ("password", v) ∉ marshalCustomer
        { b.Customer with Password := "", Addresses := some [A], Cards := some [C] }) := by
  have hm : marshalCustomer
        { b.Customer with Password := "", Addresses := some [A], Cards := some [C] } =
      [("firstName", JsonValue.str b.Customer.FirstNmae),
       ("lastName", JsonValue.str b.Customer.LastName),
       ("username", JsonValue.str b.Customer.Username),
       ("addresses", JsonValue.strs [A]), ("cards", JsonValue.strs [C])] := by
    simp [marshalCustomer, omitemptyString, marshalSlice]
  have ht := registerHandler_trace_created net customerHost users b A C hA hC
  refine ⟨ht, ?_, hm, ?_⟩
  · rw [ht, createCustomer_snd, createCard_snd, createAddress_snd]
    simp
  · intro v hv
    rw [hm] at hv
    simp at hv

/-- C5 on a payload with password `secret`. -/
theorem registerHandler_customer_sent_witness :
    ((registerHandler (netReplying 201 "http://accounts/created/1") "accounts" aliceStore
        (Except.ok bobBody)).trace[2]?).map (fun r => (r.method, r.body)) =
      some ("POST", some (marshalCustomer
        { bobBody.Customer with Password := "",
                                Addresses := some ["http://accounts/created/1"],
                                Cards := some ["http://accounts/created/1"] })) ∧
    ("password", JsonValue.str "secret") ∉ marshalCustomer
        { bobBody.Customer with Password := "",
                                Addresses := some ["http://accounts/created/1"],
                                Cards := some ["http://accounts/created/1"] } :=
  have h := registerHandler_customer_sent (netReplying 201 "http://accounts/created/1")
    "accounts" aliceStore bobBody "http://accounts/created/1" "http://accounts/created/1"
    rfl rfl
  ⟨h.2.1, h.2.2.2 (JsonValue.str "secret")⟩

/-- C6 at a failing input: the address endpoint answers the POST with status
500 and no `Location`.  `createAddress` reports no error and returns the empty
link, the card and the customer are posted all the same (three requests), and
the handler answers 200 and appends the credential. -/
theorem registerHandler_address_500_continues :
    (createAddress netAddress500 "accounts" [] bobBody.Address).1 = Except.ok "" ∧
    (registerHandler netAddress500 "accounts" aliceStore (Except.ok bobBody)).trace.length = 3 ∧
    ((registerHandler netAddress500 "accounts" aliceStore (Except.ok bobBody)).trace[1]?).map
        (fun r => r.body) = some (some (marshalCard bobBody.Card)) ∧
    (registerHandler netAddress500 "accounts" aliceStore (Except.ok bobBody)).w.status
      = some 200 ∧
    (registerHandler netAddress500 "accounts" aliceStore (Except.ok bobBody)).users
      = aliceStore ++ [⟨"", "bob", "secret"⟩] :=
  ⟨rfl, by decide, by decide, by decide, by decide⟩

/-- C7: when the address POST fails in transport, `registerHandler` answers
400 with no body, the address POST is the only request issued (no card and no
customer creation), and the credential store is as before. -/
theorem registerHandler_address_transport_error (net : Net) (customerHost : String)
    (users : List user) (b : registerBody) (err : String)
    (hpost : net.Post [] ⟨"POST", "http://" ++ customerHost ++ addressesPath,
      "application/json", some (marshalAddress b.Address)⟩ = Except.error err) :
    (registerHandler net customerHost users (Except.ok b)).w.status = some 400 ∧
    (registerHandler net customerHost users (Except.ok b)).w.body = [] ∧
    (registerHandler net customerHost users (Except.ok b)).trace =
      [⟨"POST", "http://" ++ customerHost ++ addressesPath, "application/json",
        some (marshalAddress b.Address)⟩] ∧
    (registerHandler net customerHost users (Except.ok b)).users = users ∧
    (registerHandler net customerHost users (Except.ok b)).panicked = false := by
  simp [registerHandler, createAddress, httpPost, hpost, ResponseWriter.WriteHeader,
    ResponseWriter.fresh]

/-- C7 on a downstream service that is unreachable. -/
theorem registerHandler_address_transport_error_witness :
    (registerHandler netDown "accounts" aliceStore (Except.ok bobBody)).w.status = some 400 ∧
    (registerHandler netDown "accounts" aliceStore (Except.ok bobBody)).trace.length = 1 ∧
    (registerHandler netDown "accounts" aliceStore (Except.ok bobBody)).users = aliceStore :=
  have h := registerHandler_address_transport_error netDown "accounts" aliceStore bobBody
    "connection refused" rfl
  ⟨h.1, by rw [h.2.2.1]; rfl, h.2.2.2.1⟩

end Login

namespace Login

theorem createCustomer_of_post (net : Net) (customerHost : String) (t : List Request)
    (c : customer) (s : Nat) (loc : String)
    (hS : (httpPost net t ("http://" ++ customerHost ++ addressesPath)
            (marshalCustomer c)).1 = Except.ok ⟨s, loc⟩) :
    createCustomer net customerHost t c =
      (Except.ok (decide (s = 200 ∨ s = 201)),
        t ++ [⟨"POST", "http://" ++ customerHost ++ addressesPath, "application/json",
          some (marshalCustomer c)⟩]) := by
  unfold httpPost at hS
  simp only at hS
  unfold createCustomer httpPost
  simp only [hS]
  by_cases h : s = 200 ∨ s = 201
  · simp [h]
  · simp [h]

theorem validatePassword_append_self (S : List user) (i n p : String) :
    validatePassword (S ++ [⟨i, n, p⟩]) n p = true :=
  (validatePassword_eq_true_iff _ n p).mpr ⟨⟨i, n, p⟩, by simp, rfl, rfl⟩

/-- C8: a registration answered with 200 had a decodable payload, and the
store afterwards is the store before followed by the one credential with empty
`Id`, the payload's username and the payload's password: one entry longer,
every earlier entry in place, and `validatePassword` accepts the new pair. -/
theorem registerHandler_success_appends (net : Net) (customerHost : String)
    (S : List user) (decoded : Except String registerBody)
    (h200 : (registerHandler net customerHost S decoded).w.status = some 200) :
    ∃ b : registerBody, decoded = Except.ok b ∧
      (registerHandler net customerHost S decoded).users =
        S ++ [⟨"", b.Customer.Username, b.Customer.Password⟩] ∧
      (registerHandler net customerHost S decoded).users.length = S.length + 1 ∧
      (∀ i : Nat, i < S.length →
        (registerHandler net customerHost S decoded).users[i]? = S[i]?) ∧
      validatePassword (registerHandler net customerHost S decoded).users
        b.Customer.Username b.Customer.Password = true := by
  have key : ∃ b : registerBody, decoded = Except.ok b ∧
      (registerHandler net customerHost S decoded).users =
        S ++ [⟨"", b.Customer.Username, b.Customer.Password⟩] := by
    cases decoded with
    | error e =>
      simp [registerHandler, ResponseWriter.WriteHeader, ResponseWriter.fresh] at h200
    | ok b =>
      refine ⟨b, rfl, ?_⟩
      rcases hA1 : createAddress net customerHost [] b.Address with ⟨ra, ta⟩
      cases ra with
      | error e =>
        simp [registerHandler, hA1, ResponseWriter.WriteHeader, ResponseWriter.fresh] at h200
      | ok A =>
        rcases hC1 : createCard net customerHost ta b.Card with ⟨rc, tc⟩
        cases rc with
        | error e =>
          simp [registerHandler, hA1, hC1, ResponseWriter.WriteHeader,
            ResponseWriter.fresh] at h200
        | ok C =>
          have hA : (createAddress net customerHost [] b.Address).1 = Except.ok A := by
            rw [hA1]
          have hC : (createCard net customerHost
              (createAddress net customerHost [] b.Address).2 b.Card).1 = Except.ok C := by
            rw [hA1]
            simp only
            rw [hC1]
          rw [registerHandler_created net customerHost S b A C hA hC] at h200 ⊢
          split at h200
          · simp [ResponseWriter.fresh] at h200
          · simp [ResponseWriter.WriteHeader, ResponseWriter.fresh] at h200
          · rfl
  obtain ⟨b, hb, hu⟩ := key
  refine ⟨b, hb, hu, ?_, ?_, ?_⟩
  · rw [hu]
    simp
  · intro i hi
    rw [hu]
    exact List.getElem?_append_left hi
  · rw [hu]
    exact validatePassword_append_self S "" _ _

/-- C8 on a downstream service that accepts everything with 201. -/
theorem registerHandler_success_appends_witness :
    (registerHandler (netReplying 201 "http://accounts/created/1") "accounts" aliceStore
        (Except.ok bobBody)).users = aliceStore ++ [⟨"", "bob", "secret"⟩] ∧
    validatePassword (registerHandler (netReplying 201 "http://accounts/created/1")
        "accounts" aliceStore (Except.ok bobBody)).users "bob" "secret" = true := by
  obtain ⟨b, hb, hu, -, -, hv⟩ :=
    registerHandler_success_appends (netReplying 201 "http://accounts/created/1")
      "accounts" aliceStore (Except.ok bobBody) (by decide)
  have hbb : b = bobBody := by
    injection hb with h
    exact h.symm
  subst hbb
  exact ⟨hu, hv⟩

/-- C9 at a failing input: a registration accepted in full.  The three
requests (address, card, customer) all go to `http://accounts/addresses`;
none goes to the `/cards` or the `/customers` endpoint. -/
theorem registerHandler_posts_all_to_addresses :
    (registerHandler (netReplying 201 "http://accounts/created/1") "accounts" aliceStore
        (Except.ok bobBody)).trace.map (fun r => (r.url, r.body)) =
      [("http://accounts/addresses", some (marshalAddress bobBody.Address)),
       ("http://accounts/addresses", some (marshalCard bobBody.Card)),
       ("http://accounts/addresses", some (marshalCustomer
          { bobBody.Customer with Password := "",
                                  Addresses := some ["http://accounts/created/1"],
                                  Cards := some ["http://accounts/created/1"] }))] ∧
    "http://" ++ "accounts" ++ cardsPath ∉
      (registerHandler (netReplying 201 "http://accounts/created/1") "accounts" aliceStore
        (Except.ok bobBody)).trace.map (fun r => r.url) ∧
    "http://" ++ "accounts" ++ customersPath ∉
      (registerHandler (netReplying 201 "http://accounts/created/1") "accounts" aliceStore
        (Except.ok bobBody)).trace.map (fun r => r.url) :=
  ⟨by decide, by decide, by decide⟩

/-- C10, the claim refuted at status 204: it is a success-class status, yet
`createCustomer` reports failure, and the handler answers 400 and leaves the
store as it was. -/
theorem createCustomer_rejects_204 :
    (200 ≤ 204 ∧ 204 ≤ 299) ∧
    (createCustomer (netCustomerStatus 204) "accounts"
        (createCard (netCustomerStatus 204) "accounts"
          (createAddress (netCustomerStatus 204) "accounts" [] bobBody.Address).2
          bobBody.Card).2
        { bobBody.Customer with Password := "",
                                Addresses := some ["http://accounts/created/1"],
                                Cards := some ["http://accounts/created/1"] }).1
      = Except.ok false ∧
    (registerHandler (netCustomerStatus 204) "accounts" aliceStore
        (Except.ok bobBody)).w.status = some 400 ∧
    (registerHandler (netCustomerStatus 204) "accounts" aliceStore
        (Except.ok bobBody)).users = aliceStore ∧
    ¬ ((registerHandler (netCustomerStatus 204) "accounts" aliceStore
        (Except.ok bobBody)).w.status = some 200 ↔ (200 ≤ 204 ∧ 204 ≤ 299)) :=
  ⟨by decide, rfl, by decide, by decide, by decide⟩

/-- C10 as amended: with the address and the card created, and the customer
POST answered with status `s`, `createCustomer` reports success exactly when
`s` is 200 or 201, and then the handler answers 200 and appends the
credential; for every other `s` it reports failure, the handler answers 400
and the store is as before. -/
theorem registerHandler_customer_status (net : Net) (customerHost : String)
    (users : List user) (b : registerBody) (A C : String) (s : Nat) (loc : String)
    (hA : (createAddress net customerHost [] b.Address).1 = Except.ok A)
    (hC : (createCard net customerHost
            (createAddress net customerHost [] b.Address).2 b.Card).1 = Except.ok C)
    (hS : (httpPost net
            (createCard net customerHost
              (createAddress net customerHost [] b.Address).2 b.Card).2
            ("http://" ++ customerHost ++ addressesPath)
            (marshalCustomer
              { b.Customer with Password := "", Addresses := some [A],
                                Cards := some [C] })).1 = Except.ok ⟨s, loc⟩) :
    ((createCustomer net customerHost
          (createCard net customerHost
            (createAddress net customerHost [] b.Address).2 b.Card).2
          { b.Customer with Password := "", Addresses := some [A], Cards := some [C] }).1
        = Except.ok true ↔ (s = 200 ∨ s = 201)) ∧
    ((s = 200 ∨ s = 201) →
      (registerHandler net customerHost users (Except.ok b)).w.status = some 200 ∧
      (registerHandler net customerHost users (Except.ok b)).users =
        users ++ [⟨"", b.Customer.Username, b.Customer.Password⟩]) ∧
    (¬ (s = 200 ∨ s = 201) →
      (createCustomer net customerHost
          (createCard net customerHost
            (createAddress net customerHost [] b.Address).2 b.Card).2
          { b.Customer with Password := "", Addresses := some [A], Cards := some [C] }).1
        = Except.ok false ∧
      (registerHandler net customerHost users (Except.ok b)).w.status = some 400 ∧
      (registerHandler net customerHost users (Except.ok b)).users = users) := by
  have hcc := createCustomer_of_post net customerHost _ _ s loc hS
  rw [registerHandler_created net customerHost users b A C hA hC, hcc]
  by_cases h : s = 200 ∨ s = 201
  · simp [h, ResponseWriter.WriteHeader, ResponseWriter.fresh]
  · simp [h, ResponseWriter.WriteHeader, ResponseWriter.fresh]

/-- C10 as amended, on a customer POST answered with 201. -/
theorem registerHandler_customer_status_witness :
    (registerHandler (netCustomerStatus 201) "accounts" aliceStore
        (Except.ok bobBody)).w.status = some 200 ∧
    (registerHandler (netCustomerStatus 201) "accounts" aliceStore
        (Except.ok bobBody)).users = aliceStore ++ [⟨"", "bob", "secret"⟩] :=
  (registerHandler_customer_status (netCustomerStatus 201) "accounts" aliceStore bobBody
    "http://accounts/created/1" "http://accounts/created/1" 201 "" rfl rfl rfl).2.1
    (Or.inr rfl)

end Login
